import Mathlib

/-!
Verification of the lockfree-async library (unevens/lockfree-async).

Shallow embedding of the core components:

* `Messenger` (src/lockfree/Async.hpp, Messenger.hpp section, lines 1063-1275):
  a typed channel pairing a `lifo` live stack with a `storage` free-list,
  both instances of QueueWorld's pop-all LIFO stack.  In a sequential
  embedding a LIFO stack is a list of node payloads, head = most recently
  pushed node; `push` is cons, `push_multiple(head, tail)` splices the chain
  in front preserving its internal order, `pop_all` exchanges the whole
  chain with the empty stack.  Two ghost counters `allocated` and `freed`
  instrument the `new MessageNode` and `delete` calls of the source.

* `handleMessageStack` / `receiveAndHandleMessageStack` (lines 1014-1033 and
  1286-1294): FIFO replay of a popped LIFO chain via the `prev`-link pass.

* `Instance` / `AsyncObject.timerCallback` (src/unnamed/part_001).

* `RealtimeObject` (src/lockfree/RealtimeObject.hpp).

* `AsyncThreadState` with `start` (src/lockfree/Async.hpp lines 105-125)
  and `startTimer` (src/LockFreeMessenger.hpp lines 545-565).
-/

/-- A `Messenger<T>` (Async.hpp lines 1063-1275).  `lifo` is the live stack
of pending messages (head = most recently pushed), `storage` is the
free-list of recyclable nodes (payloads of recycled nodes are kept, as the
source keeps the moved-from values inside recycled nodes).  `allocated`
counts every `new MessageNode<T>` the messenger ever performed and `freed`
counts every `delete`; both are ghost instrumentation. -/
structure Messenger (T : Type) where
  lifo : List T
  storage : List T
  allocated : Nat
  freed : Nat

namespace Messenger

variable {T : Type}

/-- Models `void send(MessageNode<T>* node)` (line 1076): push an already detached
node onto the live stack. -/
def sendNode (m : Messenger T) (v : T) : Messenger T :=
  { m with lifo := v :: m.lifo }

/-- Models `bool send(T&& message)` (lines 1086-1104): pop the whole storage; if
empty, allocate a fresh node; otherwise reuse the head node, splice the
remaining chain back onto storage, and push the node onto the live stack.
Returns `true` iff the node came from storage (no allocation). -/
def send (m : Messenger T) (message : T) : Bool × Messenger T :=
  match m.storage with
  | [] =>
    (false, { m with lifo := message :: m.lifo, allocated := m.allocated + 1 })
  | _ :: rest =>
    (true, { m with lifo := message :: m.lifo, storage := rest })

/-- Models `bool sendIfNodeAvailable(T&& message)` (lines 1112-1128): as `send`,
but when the storage is empty the message is not sent, nothing is
allocated and `false` is returned. -/
def sendIfNodeAvailable (m : Messenger T) (message : T) : Bool × Messenger T :=
  match m.storage with
  | [] => (false, m)
  | _ :: rest =>
    (true, { m with lifo := message :: m.lifo, storage := rest })

/-- Models `std::optional<T> receiveLastMessage()` (lines 1138-1147): pop the whole
live chain; if empty return `none`; otherwise take the payload of the head
(the most recently pushed message) and splice the entire popped chain onto
storage. -/
def receiveLastMessage (m : Messenger T) : Option T × Messenger T :=
  match m.lifo with
  | [] => (none, m)
  | message :: _ =>
    (some message, { m with lifo := [], storage := m.lifo ++ m.storage })

/-- Models `MessageNode<T>* receiveLastNode()` (lines 1157-1168): pop the whole
live chain; if empty return null; otherwise detach the head node (returned
to the caller) and splice the remaining tail onto storage. -/
def receiveLastNode (m : Messenger T) : Option T × Messenger T :=
  match m.lifo with
  | [] => (none, m)
  | message :: rest =>
    (some message, { m with lifo := [], storage := rest ++ m.storage })

/-- Models `MessageNode<T>* receiveAllNodes()` (line 1174): pop the whole live
chain and hand it to the caller. -/
def receiveAllNodes (m : Messenger T) : List T × Messenger T :=
  (m.lifo, { m with lifo := [] })

/-- Models `MessageNode<T>* popStorage()` (line 1182): pop the whole storage chain
and hand it to the caller. -/
def popStorage (m : Messenger T) : List T × Messenger T :=
  (m.storage, { m with storage := [] })

/-- Models `void recycle(MessageNode<T>* stack)` (lines 1191-1196): splice a
caller-held chain onto storage (no-op on the null chain). -/
def recycle (m : Messenger T) (stack : List T) : Messenger T :=
  match stack with
  | [] => m
  | _ => { m with storage := stack ++ m.storage }

/-- The chain built by the allocation loop of `allocateNodes` (lines
1203-1218): `n` freshly allocated nodes, each initialized with `init`. -/
def mkChain (n : Nat) (init : T) : List T :=
  match n with
  | 0 => []
  | k + 1 => init :: mkChain k init

/-- Models `void allocateNodes(int numNodesToAllocate)` (lines 1203-1218):
allocate `n` default-initialized nodes, chain them, and recycle the chain
into storage. -/
def allocateNodes (m : Messenger T) (n : Nat) (init : T) : Messenger T :=
  ({ m with allocated := m.allocated + n } : Messenger T).recycle (mkChain n init)

/-- Models `void discardAllMessages()` (line 1246): `recycle(lifo.pop_all())`. -/
def discardAllMessages (m : Messenger T) : Messenger T :=
  let popped := m.receiveAllNodes
  popped.2.recycle popped.1

/-- Models `void freeStorage()` (line 1254): `freeMessageStack(storage.pop_all())`,
deleting every node of the storage chain. -/
def freeStorage (m : Messenger T) : Messenger T :=
  { m with storage := [], freed := m.freed + m.storage.length }

/-- Models `void discardAndFreeAllMessages()` (line 1262):
`freeMessageStack(lifo.pop_all())`, deleting every node of the live chain. -/
def discardAndFreeAllMessages (m : Messenger T) : Messenger T :=
  { m with lifo := [], freed := m.freed + m.lifo.length }

end Messenger

/-- Models `MessageNode<T>::count()` (Async.hpp lines 992-1001): walk the chain
counting nodes.  The loop guard tests the iterator before any link is read,
so the empty (null) chain yields 0 without dereferencing anything. -/
def MessageNode.count {T : Type} : List T → Nat
  | [] => 0
  | _ :: rest => MessageNode.count rest + 1

/-- The fused loops of `handleMessageStack` (Async.hpp lines 1014-1033).
The first `while` walks from the popped head to the last node, writing
each node's `prev` link; when it stops at the last node, the `prev` chain
hanging from it is exactly the already visited prefix in reverse
(`prevChain` accumulates it).  The second `while` starts at that last node
and follows the `prev` links, invoking the action; the returned list is
the payloads in the order the action is invoked on them. -/
def handleStackLoop {T : Type} (cur : T) (rest : List T) (prevChain : List T) : List T :=
  match rest with
  | [] => cur :: prevChain
  | nxt :: rest2 => handleStackLoop nxt rest2 (cur :: prevChain)

/-- Models `handleMessageStack(head, action)` (Async.hpp lines 1014-1033): returns
the payloads in the order in which `action` is invoked on them (each
exactly once); the null chain is handled by the early return. -/
def handleMessageStack {T : Type} (head : List T) : List T :=
  match head with
  | [] => []
  | h :: rest => handleStackLoop h rest []

/-- Models `receiveAndHandleMessageStack(messenger, action)` (Async.hpp lines
1286-1294): pop all live nodes, count them (`messages->count()` runs on a
possibly null chain), handle them in FIFO order, recycle the chain.
Returns (order in which the action is invoked on the payloads, the number
of handled messages, the messenger afterwards). -/
def receiveAndHandleMessageStack {T : Type} (m : Messenger T) :
    List T × Nat × Messenger T :=
  let popped := m.receiveAllNodes
  let numMessages := MessageNode.count popped.1
  (handleMessageStack popped.1, numMessages, popped.2.recycle popped.1)

/-- Sending a list of messages one after another through a messenger with
`Messenger::send`, in list order. -/
def sendAll {T : Type} (m : Messenger T) (ms : List T) : Messenger T :=
  ms.foldl (fun acc v => (acc.send v).2) m

/-- Models `AsyncObject::Instance` (src/unnamed/part_001 lines 226-280): a local
snapshot `object` plus the `toInstance` channel delivering fresh snapshots
and the `fromInstance` channel returning stale ones to the worker. -/
structure Instance (Obj : Type) where
  object : Obj
  toInstance : Messenger Obj
  fromInstance : Messenger Obj

namespace Instance

variable {Obj : Type}

/-- Models `bool Instance::update()` (part_001 lines 236-247): `receiveLastNode`
on `toInstance`; if a node was pending, swap its payload with the local
object, send the node (now carrying the old object) through `fromInstance`
via the node overload of `send`, and return `true`; otherwise `false`. -/
def update (inst : Instance Obj) : Bool × Instance Obj :=
  let received := inst.toInstance.receiveLastNode
  match received.1 with
  | none => (false, { inst with toInstance := received.2 })
  | some newObject =>
    (true, { inst with
      object := newObject
      toInstance := received.2
      fromInstance := inst.fromInstance.sendNode inst.object })

end Instance

/-- An `AsyncObject<Obj, S>` (src/unnamed/part_001 lines 214-441).  Each
producer is represented by its change-functor messenger (the only state of
`AsyncObject::Producer` that the tick touches); changes are modelled as
functions on the settings. -/
structure AsyncObject (Obj S : Type) where
  producers : List (Messenger (S → S))
  instances : List (Instance Obj)
  objectSettings : S

/-- Models `bool Producer::handleChanges(ObjectSettings&)` (part_001 lines
327-331): `receiveAndHandleMessageStack` on the producer's messenger with
an action applying each change functor to the settings, returning whether
the number of handled changes was positive, the resulting settings, and
the producer's messenger afterwards. -/
def Producer.handleChanges {S : Type} (p : Messenger (S → S)) (s : S) :
    Bool × S × Messenger (S → S) :=
  let handled := receiveAndHandleMessageStack p
  (decide (0 < handled.2.1), handled.1.foldl (fun acc c => c acc) s, handled.2.2)

/-- The producer loop of `AsyncObject::timerCallback` (part_001 lines
422-428): handle each producer's changes in order, threading the settings
and accumulating `anyChange`. -/
def handleAllProducers {S : Type} (ps : List (Messenger (S → S))) (s : S) :
    Bool × S × List (Messenger (S → S)) :=
  match ps with
  | [] => (false, s, [])
  | p :: rest =>
    let first := Producer.handleChanges p s
    let others := handleAllProducers rest first.2.1
    (first.1 || others.1, others.2.1, first.2.2 :: others.2.2)

namespace AsyncObject

variable {Obj S : Type}

/-- Models `void AsyncObject::timerCallback()` (part_001 lines 416-435).  `build`
models the `Object` constructor from `ObjectSettings`
(`std::make_unique<Object>(objectSettings)`).  First every instance's
`fromInstance` is drained and freed; then every producer's pending changes
are applied to the settings; if any change was received, every instance's
`toInstance` is drained and freed and a single fresh snapshot built from
the final settings is sent through it. -/
def timerCallback (build : S → Obj) (a : AsyncObject Obj S) : AsyncObject Obj S :=
  let instances1 := a.instances.map fun inst =>
    { inst with fromInstance := inst.fromInstance.discardAndFreeAllMessages }
  let handled := handleAllProducers a.producers a.objectSettings
  let instances2 :=
    if handled.1 then
      instances1.map fun inst =>
        { inst with
          toInstance := ((inst.toInstance.discardAndFreeAllMessages).send (build handled.2.1)).2 }
    else instances1
  { producers := handled.2.2, instances := instances2, objectSettings := handled.2.1 }

/-- Whether at least one change functor is pending across the producers at
the start of a tick (i.e. at least one change is received during the
tick). -/
def anyChangeReceived (a : AsyncObject Obj S) : Bool :=
  a.producers.any fun p => !p.lifo.isEmpty

/-- Restatement of the spec's ordering contract, for comparison with the
settings value computed by `timerCallback`: each producer's pending
changes are applied to the settings in submission (FIFO) order — the
reverse of its popped LIFO chain — producers being visited in order. -/
def applyAllChangesInFifoOrder (a : AsyncObject Obj S) : S :=
  a.producers.foldl (fun s p => p.lifo.reverse.foldl (fun acc c => c acc) s)
    a.objectSettings

end AsyncObject

/-- A `RealtimeObject<Object>` (src/lockfree/RealtimeObject.hpp lines
32-136).  `currentObjectStorage` is the heap object exclusively held by
the realtime side (`std::unique_ptr<Object> currentObjectStorage`);
`currentObjectPtr` is the published atomic pointer, `none` standing for
null.  Since every `Object` is exclusively owned, pointer identity is
modelled by the owned value. -/
structure RealtimeObject (Obj : Type) where
  messengerForNewObjects : Messenger Obj
  messengerForOldObjects : Messenger Obj
  currentObjectStorage : Obj
  currentObjectPtr : Option Obj

namespace RealtimeObject

variable {Obj : Type}

/-- Models `Object* getFromRealtimeThread()` (RealtimeObject.hpp lines 41-50):
`receiveLastMessage` on `messengerForNewObjects`; if a new version is
there, send the current one through `messengerForOldObjects`, install the
new one and publish its pointer with a release store; return the current
object. -/
def getFromRealtimeThread (r : RealtimeObject Obj) : Obj × RealtimeObject Obj :=
  let received := r.messengerForNewObjects.receiveLastMessage
  match received.1 with
  | none => (r.currentObjectStorage, { r with messengerForNewObjects := received.2 })
  | some newObject =>
    (newObject,
      { r with
        messengerForNewObjects := received.2
        messengerForOldObjects := (r.messengerForOldObjects.send r.currentObjectStorage).2
        currentObjectStorage := newObject
        currentObjectPtr := some newObject })

/-- Models `Object* getFromNonRealtimeThread()` (RealtimeObject.hpp lines 93-96):
an acquire load of the published pointer. -/
def getFromNonRealtimeThread (r : RealtimeObject Obj) : Option Obj :=
  r.currentObjectPtr

/-- Models `void set(std::unique_ptr<Object> newObject)` (RealtimeObject.hpp
lines 103-107): `receiveAndHandleMessageStack` on `messengerForOldObjects`
with an action resetting (freeing) each stale object, then `send` the new
object through `messengerForNewObjects`. -/
def set (r : RealtimeObject Obj) (newObject : Obj) : RealtimeObject Obj :=
  let handledOld := receiveAndHandleMessageStack r.messengerForOldObjects
  { r with
    messengerForOldObjects := handledOld.2.2
    messengerForNewObjects := (r.messengerForNewObjects.send newObject).2 }

/-- Models `void changeFromNonRealtimeThread(...)` (RealtimeObject.hpp lines
57-65): read the published pointer; if null, return; otherwise copy the
object, apply the change to the copy and `set` it. -/
def changeFromNonRealtimeThread (r : RealtimeObject Obj) (change : Obj → Obj) :
    RealtimeObject Obj :=
  match r.getFromNonRealtimeThread with
  | none => r
  | some obj => r.set (change obj)

end RealtimeObject

/-- The state of an `AsyncThread` relevant to starting/stopping
(src/lockfree/Async.hpp lines 65-183 and src/LockFreeMessenger.hpp lines
521-618): the two atomic flags and a ghost counter of how many worker
threads have been spawned (each assignment `timer = std::thread(...)`
increments it). -/
structure AsyncThreadState where
  stopTimerFlag : Bool
  isRunningFlag : Bool
  threadsSpawned : Nat

namespace AsyncThreadState

/-- Models `void AsyncThread::start()` (src/lockfree/Async.hpp lines 105-125): if
the running flag is set, return; otherwise clear the stop flag, set the
running flag and spawn the worker thread. -/
def start (s : AsyncThreadState) : AsyncThreadState :=
  if s.isRunningFlag then s
  else { stopTimerFlag := false, isRunningFlag := true,
         threadsSpawned := s.threadsSpawned + 1 }

/-- Models `void AsyncThread::startTimer()` (src/LockFreeMessenger.hpp lines
545-565): if the running flag is set, return; otherwise clear the stop
flag and spawn the worker thread.  NOTE: unlike `start`, this revision
never stores `true` into `isRunningFlag` (only `stopTimer` ever writes it,
with `false`). -/
def startTimer (s : AsyncThreadState) : AsyncThreadState :=
  if s.isRunningFlag then s
  else { s with stopTimerFlag := false, threadsSpawned := s.threadsSpawned + 1 }

/-- A freshly constructed `AsyncThread`: both flags false, no worker
thread spawned yet. -/
def initial : AsyncThreadState :=
  { stopTimerFlag := false, isRunningFlag := false, threadsSpawned := 0 }

end AsyncThreadState

/-- One public `Messenger` operation, for the node-accounting invariant.
The data each operation consumes is embedded in the constructor; caller
actions on detached chains (`sendNode`, `recycle`) act on the pool of
nodes the caller currently holds. -/
inductive MsgOp (T : Type) where
  | send (v : T)
  | sendIfNodeAvailable (v : T)
  | sendNode
  | receiveLastMessage
  | receiveLastNode
  | receiveAllNodes
  | popStorage
  | recycle
  | allocateNodes (n : Nat) (init : T)
  | discardAllMessages
  | freeStorage
  | discardAndFreeAllMessages

/-- A messenger together with the pool of nodes currently detached to the
caller (chains returned by the receive operations and not yet recycled,
sent back, or dropped). -/
structure MessengerWorld (T : Type) where
  messenger : Messenger T
  detached : List T

namespace MessengerWorld

variable {T : Type}

/-- Performs one `Messenger` operation.  Chains returned to the caller
join the detached pool; `sendNode` sends one held node back (a no-op if
the caller holds none, since the source requires a node to send);
`recycle` recycles every held node. -/
def step (w : MessengerWorld T) : MsgOp T → MessengerWorld T
  | .send v => { w with messenger := (w.messenger.send v).2 }
  | .sendIfNodeAvailable v =>
    { w with messenger := (w.messenger.sendIfNodeAvailable v).2 }
  | .sendNode =>
    match w.detached with
    | [] => w
    | v :: rest => { messenger := w.messenger.sendNode v, detached := rest }
  | .receiveLastMessage =>
    { w with messenger := (w.messenger.receiveLastMessage).2 }
  | .receiveLastNode =>
    let received := w.messenger.receiveLastNode
    { messenger := received.2
      detached :=
        match received.1 with
        | none => w.detached
        | some v => v :: w.detached }
  | .receiveAllNodes =>
    let received := w.messenger.receiveAllNodes
    { messenger := received.2, detached := received.1 ++ w.detached }
  | .popStorage =>
    let popped := w.messenger.popStorage
    { messenger := popped.2, detached := popped.1 ++ w.detached }
  | .recycle =>
    { messenger := w.messenger.recycle w.detached, detached := [] }
  | .allocateNodes n init =>
    { w with messenger := w.messenger.allocateNodes n init }
  | .discardAllMessages =>
    { w with messenger := w.messenger.discardAllMessages }
  | .freeStorage => { w with messenger := w.messenger.freeStorage }
  | .discardAndFreeAllMessages =>
    { w with messenger := w.messenger.discardAndFreeAllMessages }

/-- A freshly constructed `Messenger`: both stacks empty, nothing
allocated, nothing detached. -/
def initial : MessengerWorld T :=
  { messenger := { lifo := [], storage := [], allocated := 0, freed := 0 },
    detached := [] }

/-- Running a sequence of `Messenger` operations from a given world. -/
def run (w : MessengerWorld T) (ops : List (MsgOp T)) : MessengerWorld T :=
  ops.foldl step w

/-- Node conservation: every node ever allocated is in the live stack, in
the storage free-list, detached to the caller, or destroyed — so the count
of live + free + detached nodes equals the lifetime allocation count minus
the number of freed nodes. -/
def conserved (w : MessengerWorld T) : Prop :=
  w.messenger.freed ≤ w.messenger.allocated ∧
  w.messenger.lifo.length + w.messenger.storage.length + w.detached.length =
    w.messenger.allocated - w.messenger.freed

end MessengerWorld

/-- Both branches of `Messenger::send` push the message onto the live
stack. -/
theorem Messenger.send_lifo {T : Type} (m : Messenger T) (v : T) :
    ((m.send v).2).lifo = v :: m.lifo := by
  cases h : m.storage <;> simp [Messenger.send, h]

/-- The storage chain left by `Messenger::send` is the previous storage
minus its head node (the tail is spliced back). -/
theorem Messenger.send_storage {T : Type} (m : Messenger T) (v : T) :
    ((m.send v).2).storage = m.storage.tail := by
  cases h : m.storage <;> simp [Messenger.send, h]

/-- Sending a list of messages accumulates them on the live stack in
reverse (LIFO) order. -/
theorem sendAll_lifo {T : Type} (ms : List T) (m : Messenger T) :
    (sendAll m ms).lifo = ms.reverse ++ m.lifo := by
  induction ms generalizing m with
  | nil => simp [sendAll]
  | cons v rest ih =>
    show (sendAll (m.send v).2 rest).lifo = _
    rw [ih, Messenger.send_lifo]
    simp

/-- The fused prev-link pass and action loop visit the remaining chain in
reverse, then the current node, then the accumulated prev chain. -/
theorem handleStackLoop_eq {T : Type} (rest : List T) :
    ∀ cur prevChain, handleStackLoop cur rest prevChain =
      rest.reverse ++ cur :: prevChain := by
  induction rest with
  | nil => intro cur prevChain; simp [handleStackLoop]
  | cons nxt rest2 ih =>
    intro cur prevChain
    rw [handleStackLoop, ih]
    simp

/-- The `prev`-link replay of `handleMessageStack` visits a popped LIFO
chain exactly in reverse, i.e. in FIFO submission order. -/
theorem handleMessageStack_eq_reverse {T : Type} (head : List T) :
    handleMessageStack head = head.reverse := by
  cases head with
  | nil => rfl
  | cons h rest => rw [handleMessageStack, handleStackLoop_eq]; simp

/-- The chain walk of `MessageNode::count` computes the length of the
chain. -/
theorem MessageNode.count_eq_length {T : Type} (chain : List T) :
    MessageNode.count chain = chain.length := by
  induction chain with
  | nil => rfl
  | cons h rest ih => simp [MessageNode.count, ih]

/-- C1.  For every non-empty chain of messages sent one after another
through a Messenger (whose live stack starts empty; the free-list is
arbitrary, so both the node-reusing and the allocating path of `send` are
covered) as `m1, ..., mn`, receiving them and handling them with
`receiveAndHandleMessageStack` / `handleMessageStack` invokes the action
on the payloads exactly once each and in the order `m1, m2, ..., mn`
(submission/FIFO order), using the `prev` links written during the first
reversal pass: the invocation order equals the sent list, and the handled
count equals its length. -/
theorem receiveAndHandle_fifo_order {T : Type} (m0 : Messenger T) (ms : List T)
    (h0 : m0.lifo = []) (hne : ms ≠ []) :
    (receiveAndHandleMessageStack (sendAll m0 ms)).1 = ms ∧
    (receiveAndHandleMessageStack (sendAll m0 ms)).2.1 = ms.length := by
  have hl : (sendAll m0 ms).lifo = ms.reverse := by
    rw [sendAll_lifo, h0, List.append_nil]
  constructor
  · show handleMessageStack (sendAll m0 ms).lifo = ms
    rw [hl, handleMessageStack_eq_reverse, List.reverse_reverse]
  · show MessageNode.count (sendAll m0 ms).lifo = ms.length
    rw [hl, MessageNode.count_eq_length, List.length_reverse]

/-- Witness for C1: a messenger with empty live stack and one free node;
sending 1, 2, 3 and replaying handles exactly [1, 2, 3]. -/
theorem receiveAndHandle_fifo_order_witness :
    (receiveAndHandleMessageStack
        (sendAll ({ lifo := [], storage := [0], allocated := 1, freed := 0 } :
          Messenger Nat) [1, 2, 3])).1 = [1, 2, 3] ∧
    (receiveAndHandleMessageStack
        (sendAll ({ lifo := [], storage := [0], allocated := 1, freed := 0 } :
          Messenger Nat) [1, 2, 3])).2.1 = [1, 2, 3].length :=
  receiveAndHandle_fifo_order _ _ rfl (by decide)

/-- C2.  Starting from a Messenger with empty live stack and empty
free-list, after sending the values 1, 2 and 3 in that order,
`receiveLastMessage` returns 3; `receiveAllNodes` performed afterwards
returns the empty chain; and the free-list then holds 3 nodes. -/
theorem receiveLast_after_send123 :
    ((sendAll ({ lifo := [], storage := [], allocated := 0, freed := 0 } :
        Messenger Nat) [1, 2, 3]).receiveLastMessage).1 = some 3 ∧
    (((sendAll ({ lifo := [], storage := [], allocated := 0, freed := 0 } :
        Messenger Nat) [1, 2, 3]).receiveLastMessage).2.receiveAllNodes).1 = [] ∧
    ((sendAll ({ lifo := [], storage := [], allocated := 0, freed := 0 } :
        Messenger Nat) [1, 2, 3]).receiveLastMessage).2.storage.length = 3 := by
  decide

/-- C4.  For every Messenger state whose free-list (storage stack) is
empty, `sendIfNodeAvailable` returns false, performs no allocation, and
leaves the whole messenger state — live stack, storage stack and ghost
counters — unchanged. -/
theorem sendIfNodeAvailable_empty_storage {T : Type} (m : Messenger T) (v : T)
    (h : m.storage = []) :
    m.sendIfNodeAvailable v = (false, m) := by
  obtain ⟨lifo, storage, alloc, freed⟩ := m
  simp only at h
  subst h
  rfl

/-- Witness for C4: a messenger with a pending message but an empty
free-list refuses the realtime-safe send and is left unchanged. -/
theorem sendIfNodeAvailable_empty_storage_witness :
    ({ lifo := [5], storage := [], allocated := 1, freed := 0 } :
        Messenger Nat).storage = [] ∧
    ({ lifo := [5], storage := [], allocated := 1, freed := 0 } :
        Messenger Nat).sendIfNodeAvailable 7 =
      (false, { lifo := [5], storage := [], allocated := 1, freed := 0 }) :=
  ⟨rfl, sendIfNodeAvailable_empty_storage _ 7 rfl⟩

/-- C5.  `receiveAndHandleMessageStack` on a Messenger whose live stack is
empty is total: it handles zero messages, returns the messenger unchanged,
and the `messages->count()` call is safe because the counting loop tests
the iterator before following any link (modelled by `MessageNode.count`
being defined on the empty chain, where it returns 0 without reading a
node). -/
theorem receiveAndHandle_empty_live {T : Type} (m : Messenger T)
    (h : m.lifo = []) :
    receiveAndHandleMessageStack m = (([] : List T), 0, m) := by
  obtain ⟨lifo, storage, alloc, freed⟩ := m
  simp only at h
  subst h
  rfl

/-- Witness for C5: an empty-live messenger with free nodes in storage is
handled without effect, zero messages processed. -/
theorem receiveAndHandle_empty_live_witness :
    ({ lifo := [], storage := [4, 4], allocated := 2, freed := 0 } :
        Messenger Nat).lifo = [] ∧
    receiveAndHandleMessageStack
        ({ lifo := [], storage := [4, 4], allocated := 2, freed := 0 } :
          Messenger Nat) =
      (([] : List Nat), 0,
        { lifo := [], storage := [4, 4], allocated := 2, freed := 0 }) :=
  ⟨rfl, receiveAndHandle_empty_live _ rfl⟩

/-- The allocation loop of `allocateNodes` builds a chain of exactly `n`
nodes. -/
theorem Messenger.mkChain_length {T : Type} (n : Nat) (init : T) :
    (Messenger.mkChain n init).length = n := by
  induction n with
  | zero => rfl
  | succ k ih => simp [Messenger.mkChain, ih]

/-- Recycling a chain adds exactly its nodes to the storage stack. -/
theorem Messenger.recycle_storage_length {T : Type} (m : Messenger T)
    (stack : List T) :
    (m.recycle stack).storage.length = stack.length + m.storage.length := by
  cases stack <;> simp [Messenger.recycle] <;> omega

/-- Recycling does not touch the live stack. -/
theorem Messenger.recycle_lifo {T : Type} (m : Messenger T) (stack : List T) :
    (m.recycle stack).lifo = m.lifo := by
  cases stack <;> rfl

/-- Recycling allocates nothing. -/
theorem Messenger.recycle_allocated {T : Type} (m : Messenger T)
    (stack : List T) :
    (m.recycle stack).allocated = m.allocated := by
  cases stack <;> rfl

/-- Recycling frees nothing. -/
theorem Messenger.recycle_freed {T : Type} (m : Messenger T) (stack : List T) :
    (m.recycle stack).freed = m.freed := by
  cases stack <;> rfl

/-- Every single `Messenger` operation conserves the nodes: none is
created or destroyed except through the instrumented `new`/`delete`
calls. -/
theorem MessengerWorld.step_conserved {T : Type} (w : MessengerWorld T)
    (op : MsgOp T) (h : w.conserved) : (w.step op).conserved := by
  obtain ⟨⟨lifo, storage, alloc, freed⟩, detached⟩ := w
  obtain ⟨h1, h2⟩ := h
  simp only [MessengerWorld.conserved] at h1 h2 ⊢
  cases op with
  | send v =>
    cases storage <;>
      simp [MessengerWorld.step, Messenger.send] at h1 h2 ⊢ <;> omega
  | sendIfNodeAvailable v =>
    cases storage <;>
      simp [MessengerWorld.step, Messenger.sendIfNodeAvailable] at h1 h2 ⊢ <;>
        omega
  | sendNode =>
    cases detached <;>
      simp [MessengerWorld.step, Messenger.sendNode] at h1 h2 ⊢ <;> omega
  | receiveLastMessage =>
    cases lifo <;>
      simp [MessengerWorld.step, Messenger.receiveLastMessage] at h1 h2 ⊢ <;>
        omega
  | receiveLastNode =>
    cases lifo <;>
      simp [MessengerWorld.step, Messenger.receiveLastNode] at h1 h2 ⊢ <;>
        omega
  | receiveAllNodes =>
    simp [MessengerWorld.step, Messenger.receiveAllNodes] at h1 h2 ⊢
    omega
  | popStorage =>
    simp [MessengerWorld.step, Messenger.popStorage] at h1 h2 ⊢
    omega
  | recycle =>
    cases detached <;>
      simp [MessengerWorld.step, Messenger.recycle] at h1 h2 ⊢ <;> omega
  | allocateNodes n init =>
    simp [MessengerWorld.step, Messenger.allocateNodes,
      Messenger.recycle_storage_length, Messenger.recycle_lifo,
      Messenger.recycle_allocated, Messenger.recycle_freed,
      Messenger.mkChain_length] at h1 h2 ⊢
    omega
  | discardAllMessages =>
    cases lifo <;>
      simp [MessengerWorld.step, Messenger.discardAllMessages,
        Messenger.receiveAllNodes, Messenger.recycle] at h1 h2 ⊢ <;> omega
  | freeStorage =>
    simp [MessengerWorld.step, Messenger.freeStorage] at h1 h2 ⊢
    omega
  | discardAndFreeAllMessages =>
    simp [MessengerWorld.step, Messenger.discardAndFreeAllMessages] at h1 h2 ⊢
    omega

/-- Conservation is preserved along any run of operations. -/
theorem MessengerWorld.run_conserved {T : Type} (ops : List (MsgOp T)) :
    ∀ w : MessengerWorld T, w.conserved → (w.run ops).conserved := by
  induction ops with
  | nil => intro w h; exact h
  | cons op rest ih =>
    intro w h
    exact ih (w.step op) (w.step_conserved op h)

/-- C6.  For every sequence of Messenger operations (send,
sendIfNodeAvailable, send-node, receiveLastMessage, receiveLastNode,
receiveAllNodes, popStorage, recycle, allocateNodes, discardAllMessages,
freeStorage, discardAndFreeAllMessages) starting from a fresh Messenger,
after each operation every node the Messenger has ever allocated is in
exactly one of: the live stack, the storage free-list, a chain detached to
the caller, or destroyed — the count of live + free + detached nodes
equals the lifetime allocation count minus the number of freed nodes. -/
theorem messenger_node_conservation {T : Type} (ops : List (MsgOp T)) :
    (MessengerWorld.run MessengerWorld.initial ops).conserved :=
  MessengerWorld.run_conserved ops MessengerWorld.initial ⟨Nat.le_refl 0, rfl⟩

/-- C7.  `Instance::update` returns true iff a snapshot was pending on
`toInstance`; in that case it installs the newest pending snapshot as the
local object, sends the old object back through `fromInstance`, and leaves
`toInstance` drained — so a second `update` with no intervening worker
tick returns false and changes nothing at all. -/
theorem instance_update_spec {Obj : Type} (inst : Instance Obj) :
    ((inst.update).1 = true ↔ inst.toInstance.lifo ≠ []) ∧
    (∀ v rest, inst.toInstance.lifo = v :: rest →
      (inst.update).2.object = v ∧
      (inst.update).2.fromInstance.lifo = inst.object :: inst.fromInstance.lifo ∧
      (inst.update).2.toInstance.lifo = []) ∧
    ((inst.update).2).update = (false, (inst.update).2) := by
  obtain ⟨obj, ⟨tl, ts, ta, tf⟩, fIn⟩ := inst
  cases tl with
  | nil =>
    refine ⟨by simp [Instance.update, Messenger.receiveLastNode], ?_, rfl⟩
    intro v rest h
    exact absurd h (by simp)
  | cons v rest =>
    refine ⟨by simp [Instance.update, Messenger.receiveLastNode], ?_, rfl⟩
    intro v2 rest2 h
    simp only [List.cons.injEq] at h
    obtain ⟨rfl, rfl⟩ := h
    exact ⟨rfl, rfl, rfl⟩

/-- Witness for C7: an instance holding 5 with snapshots 7 (newest) and 6
pending takes 7, returns 5 through `fromInstance`, and drains
`toInstance`. -/
theorem instance_update_spec_witness :
    (Instance.update
        ({ object := 5, toInstance := ⟨[7, 6], [], 2, 0⟩,
           fromInstance := ⟨[], [], 0, 0⟩ } : Instance Nat)).2.object = 7 ∧
    (Instance.update
        ({ object := 5, toInstance := ⟨[7, 6], [], 2, 0⟩,
           fromInstance := ⟨[], [], 0, 0⟩ } : Instance Nat)).2.fromInstance.lifo =
      5 :: ([] : List Nat) ∧
    (Instance.update
        ({ object := 5, toInstance := ⟨[7, 6], [], 2, 0⟩,
           fromInstance := ⟨[], [], 0, 0⟩ } : Instance Nat)).2.toInstance.lifo = [] :=
  (instance_update_spec _).2.1 7 [6] rfl

/-- C8.  For every RealtimeObject state, two consecutive calls to
`getFromRealtimeThread` with no intervening `set` behave identically: the
second call returns the same pointer and leaves the current object
storage, the published pointer and both messengers unchanged (the full
result of the second call equals that of the first). -/
theorem getFromRealtimeThread_idempotent {Obj : Type} (r : RealtimeObject Obj) :
    RealtimeObject.getFromRealtimeThread
        (RealtimeObject.getFromRealtimeThread r).2 =
      RealtimeObject.getFromRealtimeThread r := by
  obtain ⟨⟨nl, ns, na, nf⟩, mOld, cur, ptr⟩ := r
  cases nl <;>
    simp [RealtimeObject.getFromRealtimeThread, Messenger.receiveLastMessage]

/-- C9 (code bug).  `AsyncThread::startTimer` (src/LockFreeMessenger.hpp)
never stores true into `isRunningFlag` — only `stopTimer` ever writes the
flag — so after a first `startTimer` the guard still sees false and a
second call spawns a second worker thread (and reassigns the joinable
`std::thread` member) instead of being a no-op; the newer
`AsyncThread::start` (src/lockfree/Async.hpp) sets the flag and really is
idempotent. -/
theorem startTimer_respawns_worker :
    (AsyncThreadState.startTimer
        (AsyncThreadState.startTimer AsyncThreadState.initial)).threadsSpawned = 2 ∧
    (AsyncThreadState.startTimer AsyncThreadState.initial).isRunningFlag = false ∧
    AsyncThreadState.start (AsyncThreadState.start AsyncThreadState.initial) =
      AsyncThreadState.start AsyncThreadState.initial :=
  ⟨rfl, rfl, rfl⟩

/-- C10.  `RealtimeObject::set` (and therefore
`changeFromNonRealtimeThread`) never changes the pointer published to
non-realtime readers nor the realtime-side current object: only the two
messengers are touched, and `getFromNonRealtimeThread` returns the same
pointer before and after. -/
theorem set_preserves_published_pointer {Obj : Type} (r : RealtimeObject Obj)
    (v : Obj) (change : Obj → Obj) :
    (r.set v).currentObjectPtr = r.currentObjectPtr ∧
    (r.set v).currentObjectStorage = r.currentObjectStorage ∧
    RealtimeObject.getFromNonRealtimeThread (r.set v) =
      RealtimeObject.getFromNonRealtimeThread r ∧
    RealtimeObject.getFromNonRealtimeThread
        (r.changeFromNonRealtimeThread change) =
      RealtimeObject.getFromNonRealtimeThread r := by
  refine ⟨rfl, rfl, rfl, ?_⟩
  cases h : r.currentObjectPtr <;>
    simp [RealtimeObject.changeFromNonRealtimeThread,
      RealtimeObject.getFromNonRealtimeThread, RealtimeObject.set, h]

/-- A producer reports a change exactly when its live stack was
non-empty. -/
theorem Producer.handleChanges_anyChange {S : Type} (p : Messenger (S → S))
    (s : S) :
    (Producer.handleChanges p s).1 = !p.lifo.isEmpty := by
  show decide (0 < MessageNode.count p.lifo) = !p.lifo.isEmpty
  rw [MessageNode.count_eq_length]
  cases p.lifo <;> simp

/-- A producer applies its pending change functors to the settings in
submission (FIFO) order, i.e. in the reverse of its popped LIFO chain. -/
theorem Producer.handleChanges_settings {S : Type} (p : Messenger (S → S))
    (s : S) :
    (Producer.handleChanges p s).2.1 =
      p.lifo.reverse.foldl (fun acc c => c acc) s := by
  show (handleMessageStack p.lifo).foldl (fun acc c => c acc) s = _
  rw [handleMessageStack_eq_reverse]

/-- The producer loop reports a change exactly when some producer had a
non-empty live stack. -/
theorem handleAllProducers_anyChange {S : Type}
    (ps : List (Messenger (S → S))) :
    ∀ s, (handleAllProducers ps s).1 = ps.any fun p => !p.lifo.isEmpty := by
  induction ps with
  | nil => intro s; rfl
  | cons p rest ih =>
    intro s
    show ((Producer.handleChanges p s).1 ||
        (handleAllProducers rest (Producer.handleChanges p s).2.1).1) = _
    rw [Producer.handleChanges_anyChange, ih]
    simp

/-- The producer loop applies every producer's pending changes to the
settings, producers in order, each producer's changes in FIFO order. -/
theorem handleAllProducers_settings {S : Type}
    (ps : List (Messenger (S → S))) :
    ∀ s, (handleAllProducers ps s).2.1 =
      ps.foldl (fun acc p => p.lifo.reverse.foldl (fun acc2 c => c acc2) acc) s := by
  induction ps with
  | nil => intro s; rfl
  | cons p rest ih =>
    intro s
    show (handleAllProducers rest (Producer.handleChanges p s).2.1).2.1 = _
    rw [ih, Producer.handleChanges_settings]
    rfl

/-- C3.  For every worker tick (`timerCallback`) of an AsyncObject: the
settings at the end of the tick are the result of applying all changes
received during the tick (per producer in FIFO order); if at least one
change functor was received, then at the end of the tick each Instance's
`toInstance` channel contains exactly one pending message — a fresh `Obj`
built from those final settings — every older undelivered snapshot having
been discarded; if no change functor was received, no Instance's
`toInstance` channel is touched. -/
theorem timerCallback_snapshot_broadcast {Obj S : Type} (build : S → Obj)
    (a : AsyncObject Obj S) :
    (a.timerCallback build).objectSettings = a.applyAllChangesInFifoOrder ∧
    (a.anyChangeReceived = true →
      (a.timerCallback build).instances.map (fun i => i.toInstance.lifo) =
        a.instances.map fun _ =>
          [build (a.timerCallback build).objectSettings]) ∧
    (a.anyChangeReceived = false →
      (a.timerCallback build).instances.map (fun i => i.toInstance) =
        a.instances.map fun i => i.toInstance) := by
  have hset : (a.timerCallback build).objectSettings =
      a.applyAllChangesInFifoOrder := by
    show (handleAllProducers a.producers a.objectSettings).2.1 = _
    rw [handleAllProducers_settings]
    rfl
  refine ⟨hset, ?_, ?_⟩
  · intro h
    have hany : (handleAllProducers a.producers a.objectSettings).1 = true := by
      rw [handleAllProducers_anyChange]
      exact h
    simp only [AsyncObject.timerCallback, hany, if_true, List.map_map]
    refine List.map_congr_left ?_
    intro inst _
    simp [Function.comp, Messenger.send_lifo,
      Messenger.discardAndFreeAllMessages]
  · intro h
    have hany : (handleAllProducers a.producers a.objectSettings).1 = false := by
      rw [handleAllProducers_anyChange]
      exact h
    simp only [AsyncObject.timerCallback, hany, Bool.false_eq_true, if_false,
      List.map_map]
    refine List.map_congr_left ?_
    intro inst _
    rfl

/-- A producer with one pending change (+1), for the C3 witness. -/
def tickProducer : Messenger (Nat → Nat) :=
  { lifo := [fun n => n + 1], storage := [], allocated := 1, freed := 0 }

/-- An instance with a stale undelivered snapshot 99 pending and a stale
returned object 5 to reclaim, for the C3 witness. -/
def tickInstance : Instance Nat :=
  { object := 0
    toInstance := { lifo := [99], storage := [], allocated := 1, freed := 0 }
    fromInstance := { lifo := [5], storage := [], allocated := 1, freed := 0 } }

/-- An AsyncObject mid-flight, for the C3 witness. -/
def tickAsyncObject : AsyncObject Nat Nat :=
  { producers := [tickProducer], instances := [tickInstance],
    objectSettings := 0 }

/-- Witness for C3: one producer with one pending change; after the tick
the single instance's `toInstance` holds exactly the one fresh snapshot
(the stale snapshot 99 is gone). -/
theorem timerCallback_snapshot_broadcast_witness :
    AsyncObject.anyChangeReceived tickAsyncObject = true ∧
    (tickAsyncObject.timerCallback (fun n => n)).instances.map
        (fun i => i.toInstance.lifo) =
      tickAsyncObject.instances.map fun _ =>
        [(fun n => n)
          ((tickAsyncObject.timerCallback (fun n => n)).objectSettings)] :=
  ⟨rfl, (timerCallback_snapshot_broadcast (fun n => n) tickAsyncObject).2.1 rfl⟩
